import Mathlib

/-!
# node-pty ConPTY backend (`src/native/src/win/conpty.cc`)

A shallow embedding of the pseudo-terminal session code: the session registry
(`ptyHandles`, `ptyCounter`, `get_pty_baton`), the pipe provisioner
(`createDataServerPipe`), the console virtualizer (the two overloads of
`CreateNamedPipesAndPseudoConsole`) and the process launcher (the two
overloads of `PtyConnect`, with `envlen`).

Operating-system calls are external: each function takes a record with the
values the operating system answers, and returns, next to its result, the
list of operating-system calls it issued, in order, with their arguments.
Machine integers are `Int`/`Nat` with explicit wrap-around.
-/

namespace ConPty

/-! ## Machine integers and platform types -/

/-- Value of a 32-bit two's-complement integer (`int`, `LONG`, `HRESULT`, `int32_t`). -/
def toInt32 (n : Int) : Int := (n + 2147483648) % 4294967296 - 2147483648

/-- Value of a 16-bit two's-complement integer (`SHORT`). -/
def toInt16 (n : Int) : Int := (n + 32768) % 65536 - 32768

/-- A `HANDLE` is a pointer-sized value; `0` is `nullptr`. -/
abbrev HANDLE := Int
/-- A pseudo-console handle, `typedef VOID* HPCON`. -/
abbrev HPCON := Int
/-- A `DWORD`, an unsigned 32-bit integer. -/
abbrev DWORD := Nat
/-- An `HRESULT`, a signed 32-bit integer. -/
abbrev HRESULT := Int
/-- A wide string, as its sequence of `WCHAR` code units. -/
abbrev WString := List Nat

/-- The code units of a wide string literal. -/
def L (s : String) : WString := s.toList.map Char.toNat

/-- The constant `INVALID_HANDLE_VALUE`, that is `(HANDLE)-1`. -/
def INVALID_HANDLE_VALUE : HANDLE := -1

/-- The test `SUCCEEDED(hr)` of the platform headers: `hr >= 0`. -/
def SUCCEEDED (hr : HRESULT) : Bool := decide (0 ≤ hr)

/-- The constant `E_INVALIDARG`, `0x80070057` as a signed 32-bit value. -/
def E_INVALIDARG : HRESULT := toInt32 0x80070057

/-- The constant `FACILITY_WIN32` of the platform headers. -/
def FACILITY_WIN32 : Nat := 7

/-- The conversion `HRESULT_FROM_WIN32(x)` as the platform headers define it:
`(HRESULT)(x) <= 0 ? (HRESULT)(x)
   : (HRESULT)(((x) & 0x0000FFFF) | (FACILITY_WIN32 << 16) | 0x80000000)`. -/
def HRESULT_FROM_WIN32 (x : DWORD) : HRESULT :=
  if toInt32 (x : Int) ≤ 0 then toInt32 (x : Int)
  else toInt32 (((x &&& 0x0000FFFF) ||| (FACILITY_WIN32 <<< 16) ||| 0x80000000 : Nat) : Int)

def PIPE_ACCESS_INBOUND : Nat := 0x00000001
def PIPE_ACCESS_OUTBOUND : Nat := 0x00000002
def FILE_FLAG_FIRST_PIPE_INSTANCE : Nat := 0x00080000
def PIPE_TYPE_BYTE : Nat := 0x00000000
def PIPE_READMODE_BYTE : Nat := 0x00000000
def PIPE_WAIT : Nat := 0x00000000
def STARTF_USESTDHANDLES : Nat := 0x00000100
def EXTENDED_STARTUPINFO_PRESENT : Nat := 0x00080000
def CREATE_UNICODE_ENVIRONMENT : Nat := 0x00000400

/-- The platform's `ProcThreadAttributeValue(Number, Thread, Input, Additive)`. -/
def ProcThreadAttributeValue (number : Nat) (thread input additive : Bool) : Nat :=
  (number &&& 0x0000FFFF) ||| (if thread then 0x00010000 else 0)
    ||| (if input then 0x00020000 else 0) ||| (if additive then 0x00040000 else 0)

/-- The attribute key defined at the top of the source file. -/
def PROC_THREAD_ATTRIBUTE_PSEUDOCONSOLE : Nat :=
  ProcThreadAttributeValue 22 false true false

/-- The structure `COORD`: two `SHORT`s. -/
structure COORD where
  X : Int
  Y : Int
deriving DecidableEq, Repr

/-! ## Operating-system calls -/

/-- One call into the operating system, with the arguments the code passes. -/
inductive Call where
  | LoadLibraryExW (name : WString)
  | GetProcAddress (symbol : String)
  | GetLastError
  | CreateNamedPipeW (name : WString) (dwOpenMode dwPipeMode nMaxInstances
      nOutBufferSize nInBufferSize nDefaultTimeOut : Nat)
  | CreatePseudoConsole (size : COORD) (hIn hOut : HANDLE) (dwFlags : DWORD)
  | ConnectNamedPipe (h : HANDLE)
  | InitializeProcThreadAttributeList (withList : Bool) (dwAttributeCount : Nat)
  | UpdateProcThreadAttribute (key : Nat) (value : HPCON)
  | CreateProcessW (commandLine : WString) (bInheritHandles : Bool)
      (dwCreationFlags : Nat) (lpEnvironment : Option WString)
      (lpCurrentDirectory : WString) (startupFlags : Nat)
deriving DecidableEq, Repr

/-! ## Session registry -/

/-- The record `struct pty_baton`. -/
structure pty_baton where
  id : Int
  hIn : HANDLE
  hOut : HANDLE
  hpc : HPCON
deriving DecidableEq, Repr

/-- The process-wide state: `static std::vector<pty_baton*> ptyHandles` and
`static volatile LONG ptyCounter`. -/
structure State where
  ptyHandles : List pty_baton
  ptyCounter : Int
deriving DecidableEq, Repr

/-- The state at process start: both statics are zero-initialised. -/
def State.init : State := { ptyHandles := [], ptyCounter := 0 }

/-- The function `get_pty_baton`: first record with the given id, `none` for
the `nullptr` it returns when the loop finds none. -/
def get_pty_baton (ptyHandles : List pty_baton) (id : Int) : Option pty_baton :=
  match ptyHandles with
  | [] => none
  | ptyHandle :: rest =>
    if ptyHandle.id = id then some ptyHandle else get_pty_baton rest id

/-- The platform's `InterlockedIncrement` on a `LONG`: the incremented value,
wrapping at 32 bits, is stored and returned. -/
def InterlockedIncrement (counter : Int) : Int := toInt32 (counter + 1)

/-! ## Pipe provisioner -/

/-- What `createDataServerPipe` leaves behind: its `bool` result, `*hServer`,
`name`, and the calls issued. -/
structure PipeResult where
  ok : Bool
  hServer : HANDLE
  name : WString
  trace : List Call
deriving DecidableEq, Repr

/-- The function `createDataServerPipe`. `created` is what `CreateNamedPipeW`
answers. -/
def createDataServerPipe (created : HANDLE) (write : Bool) (kind : WString)
    (pipeName : WString) : PipeResult :=
  let name := L "\\\\.\\pipe\\" ++ pipeName ++ L "-" ++ kind
  let winOpenMode := PIPE_ACCESS_INBOUND ||| PIPE_ACCESS_OUTBOUND ||| FILE_FLAG_FIRST_PIPE_INSTANCE
  let hServer := created
  { ok := decide (hServer ≠ INVALID_HANDLE_VALUE)
    hServer := hServer
    name := name
    trace := [Call.CreateNamedPipeW name winOpenMode
      (PIPE_TYPE_BYTE ||| PIPE_READMODE_BYTE ||| PIPE_WAIT) 1 0 0 30000] }

/-- The function `handoff`: a fresh buffer holding the string and its
terminating null. -/
def handoff (ws : WString) : WString := ws ++ [0]

/-! ## Console virtualizer -/

/-- What the operating system answers during one `createSession` call. -/
structure CreateOS where
  /-- Result of `LoadLibraryExW(L"kernel32.dll", 0, 0)`; `0` is null. -/
  hLibrary : HANDLE
  /-- Whether `GetProcAddress` resolves `CreatePseudoConsole`. -/
  pfnCreate : Bool
  /-- Result of `CreateNamedPipeW` for the input pipe. -/
  pipeIn : HANDLE
  /-- Result of `CreateNamedPipeW` for the output pipe. -/
  pipeOut : HANDLE
  /-- Value of `GetLastError()` at the one place a path reads it: the code the
  failed call just before has set, a nonzero `DWORD`. -/
  lastError : DWORD
  /-- Result of the resolved `CreatePseudoConsole`. -/
  consoleHr : HRESULT
  /-- Content of `*phPC` once `CreatePseudoConsole` has returned. -/
  consoleHpc : HPCON
  /-- Indeterminate initial value of the local `hIn` of the C entry point. -/
  uninitIn : HANDLE
  /-- Indeterminate initial value of the local `hOut` of the C entry point. -/
  uninitOut : HANDLE
  /-- Indeterminate initial value of the local `hpc` of the C entry point. -/
  uninitPc : HPCON
deriving DecidableEq, Repr

/-- What the inner `CreateNamedPipesAndPseudoConsole` leaves behind: its
result, the cells behind its three pointers (`none` for a null pointer), the
two name references, and the calls issued. -/
structure InnerResult where
  hr : HRESULT
  hInput : Option HANDLE
  hOutput : Option HANDLE
  hPC : Option HPCON
  inName : WString
  outName : WString
  trace : List Call
deriving DecidableEq, Repr

/-- The C++ overload `CreateNamedPipesAndPseudoConsole(COORD, DWORD, HANDLE*,
HANDLE*, HPCON*, std::wstring&, std::wstring&, const std::wstring&)`.
A pointer argument is `none` when null, else the current content of its cell. -/
def CreateNamedPipesAndPseudoConsole (os : CreateOS) (size : COORD) (dwFlags : DWORD)
    (phInput phOutput : Option HANDLE) (phPC : Option HPCON)
    (inName outName pipeName : WString) : InnerResult :=
  let t0 := [Call.LoadLibraryExW (L "kernel32.dll")]
  let fLoadedDll := decide (os.hLibrary ≠ 0)
  if fLoadedDll then
    let t1 := t0 ++ [Call.GetProcAddress "CreatePseudoConsole"]
    if os.pfnCreate then
      if phPC.isNone || phInput.isNone || phOutput.isNone then
        { hr := E_INVALIDARG, hInput := phInput, hOutput := phOutput, hPC := phPC,
          inName := inName, outName := outName, trace := t1 }
      else
        let p1 := createDataServerPipe os.pipeIn true (L "in") pipeName
        if !p1.ok then
          { hr := HRESULT_FROM_WIN32 os.lastError, hInput := some p1.hServer,
            hOutput := phOutput, hPC := phPC, inName := p1.name, outName := outName,
            trace := t1 ++ p1.trace ++ [Call.GetLastError] }
        else
          let p2 := createDataServerPipe os.pipeOut false (L "out") pipeName
          if !p2.ok then
            { hr := HRESULT_FROM_WIN32 os.lastError, hInput := some p1.hServer,
              hOutput := some p2.hServer, hPC := phPC, inName := p1.name,
              outName := p2.name,
              trace := t1 ++ p1.trace ++ p2.trace ++ [Call.GetLastError] }
          else
            { hr := os.consoleHr, hInput := some p1.hServer, hOutput := some p2.hServer,
              hPC := some os.consoleHpc, inName := p1.name, outName := p2.name,
              trace := t1 ++ p1.trace ++ p2.trace ++
                [Call.CreatePseudoConsole size p1.hServer p2.hServer dwFlags] }
    else
      { hr := HRESULT_FROM_WIN32 os.lastError, hInput := phInput, hOutput := phOutput,
        hPC := phPC, inName := inName, outName := outName,
        trace := t1 ++ [Call.GetLastError] }
  else
    { hr := HRESULT_FROM_WIN32 os.lastError, hInput := phInput, hOutput := phOutput,
      hPC := phPC, inName := inName, outName := outName,
      trace := t0 ++ [Call.GetLastError] }

/-- The output parameters of the C entry point `createSession`. -/
structure CreateOutputs where
  ptyId : Int
  hIn : HANDLE
  inName : WString
  hOut : HANDLE
  outName : WString
deriving DecidableEq, Repr

/-- What one `createSession` call leaves behind: the `HRESULT`, the output
parameters (`none` when none of them was written), the process-wide state,
the registry record it inserted (`none` when it inserted none), and the calls
issued. -/
structure CreateResult where
  hr : HRESULT
  outputs : Option CreateOutputs
  state : State
  inserted : Option pty_baton
  trace : List Call
deriving DecidableEq, Repr

/-- The C entry point `CreateNamedPipesAndPseudoConsole(uint32_t cols,
uint32_t rows, DWORD dwFlags, WCHAR *ppipeName, int *pptyId, void **phIn,
WCHAR **pinName, void **phOut, WCHAR **poutName)`. `ppipeName` is the
null-terminated string the pointer designates, without its terminator. -/
def CreateNamedPipesAndPseudoConsole_C (st : State) (os : CreateOS) (cols rows : Nat)
    (dwFlags : DWORD) (ppipeName : WString) : CreateResult :=
  let pipeName := ppipeName
  let r := CreateNamedPipesAndPseudoConsole os
    { X := toInt16 (cols : Int), Y := toInt16 (rows : Int) } dwFlags
    (some os.uninitIn) (some os.uninitOut) (some os.uninitPc) [] [] pipeName
  let hIn := r.hInput.getD os.uninitIn
  let hOut := r.hOutput.getD os.uninitOut
  let hpc := r.hPC.getD os.uninitPc
  if SUCCEEDED r.hr then
    let ptyId := InterlockedIncrement st.ptyCounter
    let baton : pty_baton := { id := ptyId, hIn := hIn, hOut := hOut, hpc := hpc }
    { hr := r.hr
      outputs := some { ptyId := ptyId, hIn := hIn, inName := handoff r.inName,
                        hOut := hOut, outName := handoff r.outName }
      state := { ptyHandles := st.ptyHandles ++ [baton], ptyCounter := ptyId }
      inserted := some baton
      trace := r.trace }
  else
    { hr := r.hr, outputs := none, state := st, inserted := none, trace := r.trace }

/-- One `createSession` call: its arguments and the operating system's answers. -/
structure CreateArgs where
  cols : Nat
  rows : Nat
  dwFlags : DWORD
  ppipeName : WString
  os : CreateOS
deriving DecidableEq, Repr

/-- The boundary operation `createSession`: one call of the C entry point. -/
def createSession (st : State) (c : CreateArgs) : CreateResult :=
  CreateNamedPipesAndPseudoConsole_C st c.os c.cols c.rows c.dwFlags c.ppipeName

/-- The results of a serialized sequence of `createSession` calls from `st`. -/
def runCreate (st : State) : List CreateArgs → List CreateResult
  | [] => []
  | c :: cs => createSession st c :: runCreate (createSession st c).state cs

/-- The state after a serialized sequence of `createSession` calls from `st`. -/
def finalState (st : State) : List CreateArgs → State
  | [] => st
  | c :: cs => finalState (createSession st c).state cs

/-- The session ids the calls of a sequence returned, in call order. -/
def returnedIds (rs : List CreateResult) : List Int :=
  rs.filterMap (fun r => r.outputs.map (fun o => o.ptyId))

/-! ## Process launcher -/

/-- The build configuration and what the operating system answers during one
`attachAndSpawn` call. -/
structure ConnectOS where
  /-- Whether `NDEBUG` is defined, so that `assert` expands to nothing. -/
  ndebug : Bool
  /-- Result of `ConnectNamedPipe` on the input pipe. -/
  connectIn : Bool
  /-- Result of `ConnectNamedPipe` on the output pipe. -/
  connectOut : Bool
  /-- Result of the second `InitializeProcThreadAttributeList`. -/
  initAttr : Bool
  /-- Result of `UpdateProcThreadAttribute`. -/
  updateAttr : Bool
  /-- Result of `CreateProcessW`. -/
  createProcess : Bool
  /-- The field `piClient.hProcess` after a successful `CreateProcessW`. -/
  hProcess : HANDLE
  /-- The field `piClient.dwProcessId` after a successful `CreateProcessW`. -/
  dwProcessId : DWORD
deriving DecidableEq, Repr

/-- How one `attachAndSpawn` call ends. -/
inductive Outcome where
  /-- The function returns `value`; `hProcess` is `some h` when the reference
  parameter was assigned `h`, `none` when it was left alone. -/
  | returned (value : Int) (hProcess : Option HANDLE)
  /-- The null pointer `get_pty_baton` returned is dereferenced (`handle->hIn`). -/
  | nullDereference
  /-- An `assert` fails and aborts the process. -/
  | assertionFailed
  /-- The scan in `envlen` reads past the end of the environment block. -/
  | readPastEnd
deriving DecidableEq, Repr

/-- What one `attachAndSpawn` call leaves behind. -/
structure ConnectResult where
  outcome : Outcome
  trace : List Call
deriving DecidableEq, Repr

/-- The constant `STRSAFE_MAX_CCH` of the platform headers. -/
def STRSAFE_MAX_CCH : Nat := 2147483647

/-- The constant `STRSAFE_E_INVALID_PARAMETER`, `0x80070057`. -/
def STRSAFE_E_INVALID_PARAMETER : HRESULT := toInt32 0x80070057

/-- The constant `STRSAFE_E_INSUFFICIENT_BUFFER`, `0x8007007A`. -/
def STRSAFE_E_INSUFFICIENT_BUFFER : HRESULT := toInt32 0x8007007A

/-- The string `ws.c_str()` designates: the code units before the first null. -/
def c_str (ws : WString) : WString := ws.takeWhile (fun c => c != 0)

/-- The platform's `StringCchCopyW(dest, cchDest, src)` into a zero-filled
buffer: the result and the string `dest` holds afterwards. -/
def StringCchCopyW (cchDest : Nat) (src : WString) : HRESULT × WString :=
  if cchDest = 0 ∨ STRSAFE_MAX_CCH < cchDest then (STRSAFE_E_INVALID_PARAMETER, [])
  else if src.length < cchDest then (0, src)
  else (STRSAFE_E_INSUFFICIENT_BUFFER, src.take (cchDest - 1))

/-- The template `vectorFromString`: the characters of the string, as a vector. -/
def vectorFromString (str : WString) : List Nat := str

/-- The C++ overload `PtyConnect(int id, const std::wstring& cmdline,
const std::wstring& cwd, const std::wstring& env, HANDLE& hProcess)`. -/
def PtyConnect (st : State) (os : ConnectOS) (id : Int) (cmdline cwd env : WString) :
    ConnectResult :=
  -- Prepare command line
  let copy1 := StringCchCopyW (cmdline.length + 1) (c_str cmdline)
  if !SUCCEEDED copy1.1 && !os.ndebug then { outcome := .assertionFailed, trace := [] } else
  let mutableCommandline := copy1.2
  -- Prepare cwd
  let copy2 := StringCchCopyW (cwd.length + 1) (c_str cwd)
  if !SUCCEEDED copy2.1 && !os.ndebug then { outcome := .assertionFailed, trace := [] } else
  let mutableCwd := copy2.2
  -- Prepare environment
  let envV := vectorFromString env
  let envArg : Option WString := if envV.isEmpty then none else some envV
  -- Fetch pty handle from ID and start process
  match get_pty_baton st.ptyHandles id with
  | none => { outcome := .nullDereference, trace := [] }
  | some handle =>
    let t1 := [Call.ConnectNamedPipe handle.hIn]
    let t2 := if os.connectIn then t1 ++ [Call.ConnectNamedPipe handle.hOut] else t1
    let success := os.connectIn && os.connectOut
    if !success && !os.ndebug then { outcome := .assertionFailed, trace := t2 } else
    let t3 := t2 ++ [Call.InitializeProcThreadAttributeList false 1,
                     Call.InitializeProcThreadAttributeList true 1]
    if !os.initAttr then { outcome := .returned (-1) none, trace := t3 } else
    let t4 := t3 ++ [Call.UpdateProcThreadAttribute PROC_THREAD_ATTRIBUTE_PSEUDOCONSOLE handle.hpc]
    if !os.updateAttr then { outcome := .returned (-2) none, trace := t4 } else
    let t5 := t4 ++ [Call.CreateProcessW mutableCommandline false
      (EXTENDED_STARTUPINFO_PRESENT ||| CREATE_UNICODE_ENVIRONMENT) envArg mutableCwd
      STARTF_USESTDHANDLES]
    if !os.createProcess then { outcome := .returned (-3) none, trace := t5 } else
    { outcome := .returned (toInt32 (os.dwProcessId : Int)) (some os.hProcess), trace := t5 }

/-- The scan of `envlen` from index `i`, over the memory that remains of the
block: `none` when `env[i]` or `env[i+1]` lies past the end of the block. -/
def envlenFrom (i : Nat) : List Int → Option Nat
  | [] => none
  | c :: rest =>
    if c = 0 then
      match rest with
      | [] => none
      | d :: _ => if d = 0 then some (i + 2) else envlenFrom (i + 1) rest
    else envlenFrom (i + 1) rest

/-- The function `envlen`; `env` is the memory of the block, one `char`
(signed, 8 bits) per element. -/
def envlen (env : List Int) : Option Nat := envlenFrom 0 env

/-- The conversion of a `char` to a `WCHAR` (unsigned, 16 bits) that the range
constructor of `std::wstring` applies to each element. -/
def widen (c : Int) : Nat := (c % 65536).toNat

/-- The C entry point `PtyConnect(int id, const char *cmdline, const char *cwd,
const char *env, HANDLE &hProcess)`. `cmdline` and `cwd` are the
null-terminated strings the pointers designate, without their terminators;
`env` is the memory of the environment block. -/
def PtyConnect_C (st : State) (os : ConnectOS) (id : Int) (cmdline cwd env : List Int) :
    ConnectResult :=
  let wcmdline := cmdline.map widen
  let wcwd := cwd.map widen
  match envlen env with
  | none => { outcome := .readPastEnd, trace := [] }
  | some n =>
    let wenv := (env.take n).map widen
    PtyConnect st os id wcmdline wcwd wenv

/-- The environment block of a sequence of strings: each string followed by
one null, the whole followed by one additional null. -/
def envBlock (strs : List (List Int)) : List Int :=
  (strs.map (fun s => s ++ [0])).flatten ++ [0]

/-- Whether a call is a process creation. -/
def Call.isCreateProcess : Call → Bool
  | .CreateProcessW _ _ _ _ _ _ => true
  | _ => false

/-- Whether a call creates a pipe or a console. -/
def Call.isResourceCreation : Call → Bool
  | .CreateNamedPipeW _ _ _ _ _ _ _ => true
  | .CreatePseudoConsole _ _ _ _ => true
  | _ => false

/-- The boundary operation `attachAndSpawn`: the C entry point `PtyConnect`. -/
def attachAndSpawn (st : State) (os : ConnectOS) (id : Int) (cmdline cwd env : List Int) :
    ConnectResult :=
  PtyConnect_C st os id cmdline cwd env

/-- A `createSession` call in which every operating-system call succeeds. -/
def okCall (hIn hOut : HANDLE) (hpc : HPCON) : CreateArgs :=
  { cols := 80, rows := 24, dwFlags := 0, ppipeName := L "sess1",
    os := { hLibrary := 1, pfnCreate := true, pipeIn := hIn, pipeOut := hOut,
            lastError := 0, consoleHr := 0, consoleHpc := hpc,
            uninitIn := 0, uninitOut := 0, uninitPc := 0 } }

/-- A `createSession` call in which the creation of the input pipe fails with
`ERROR_PIPE_BUSY`. -/
def pipeBusyCall : CreateArgs :=
  { cols := 80, rows := 24, dwFlags := 0, ppipeName := L "sess1",
    os := { hLibrary := 1, pfnCreate := true, pipeIn := INVALID_HANDLE_VALUE, pipeOut := 0,
            lastError := 231, consoleHr := 0, consoleHpc := 0,
            uninitIn := 0, uninitOut := 0, uninitPc := 0 } }

/-- The id the `k`-th successful call (counting from 0) receives. -/
def idOf (k : Nat) : Int := toInt32 ((k : Int) + 1)

/-- The registry invariant after `n` successful calls from the initial state. -/
def Reg (n : Nat) (st : State) : Prop :=
  st.ptyCounter = toInt32 (n : Int) ∧
    st.ptyHandles.map (fun b => b.id) = (List.range n).map idOf

/-- The calls an `attachAndSpawn` can issue, given the record the lookup found. -/
def allowedCalls (handle : pty_baton) (cmdline cwd env : WString) : List Call :=
  [Call.ConnectNamedPipe handle.hIn, Call.ConnectNamedPipe handle.hOut,
   Call.InitializeProcThreadAttributeList false 1,
   Call.InitializeProcThreadAttributeList true 1,
   Call.UpdateProcThreadAttribute PROC_THREAD_ATTRIBUTE_PSEUDOCONSOLE handle.hpc,
   Call.CreateProcessW (StringCchCopyW (cmdline.length + 1) (c_str cmdline)).2 false
     (EXTENDED_STARTUPINFO_PRESENT ||| CREATE_UNICODE_ENVIRONMENT)
     (if env.isEmpty then none else some env)
     (StringCchCopyW (cwd.length + 1) (c_str cwd)).2 STARTF_USESTDHANDLES]

/-- A state with one registered session, of id 1. -/
def oneSession : State :=
  { ptyHandles := [{ id := 1, hIn := 100, hOut := 101, hpc := 200 }], ptyCounter := 1 }

/-- An `attachAndSpawn` call in which every operating-system call succeeds. -/
def okSpawn (pid : DWORD) : ConnectOS :=
  { ndebug := false, connectIn := true, connectOut := true, initAttr := true,
    updateAttr := true, createProcess := true, hProcess := 500, dwProcessId := pid }

/-- A `createSession` call in which `GetProcAddress` does not find
`CreatePseudoConsole` and the error code is `ERROR_PROC_NOT_FOUND`. -/
def procNotFoundCall : CreateArgs :=
  { cols := 80, rows := 24, dwFlags := 0, ppipeName := L "sess1",
    os := { hLibrary := 1, pfnCreate := false, pipeIn := 0, pipeOut := 0,
            lastError := 127, consoleHr := 0, consoleHpc := 0,
            uninitIn := 11, uninitOut := 12, uninitPc := 13 } }

/-- A `createSession` call in which both pipes are created and
`CreatePseudoConsole` returns `E_FAIL`. -/
def bindingFailedCall : CreateArgs :=
  { cols := 80, rows := 24, dwFlags := 0, ppipeName := L "sess1",
    os := { hLibrary := 1, pfnCreate := true, pipeIn := 100, pipeOut := 101,
            lastError := 0, consoleHr := -2147467259, consoleHpc := 0,
            uninitIn := 11, uninitOut := 12, uninitPc := 13 } }

/-- A `createSession` call in which kernel32 cannot be loaded and the error
code is `ERROR_MOD_NOT_FOUND`. -/
def moduleNotFoundCall : CreateArgs :=
  { cols := 80, rows := 24, dwFlags := 0, ppipeName := L "sess1",
    os := { hLibrary := 0, pfnCreate := false, pipeIn := 0, pipeOut := 0,
            lastError := 126, consoleHr := 0, consoleHpc := 0,
            uninitIn := 11, uninitOut := 12, uninitPc := 13 } }

/-- A `createSession` call for 40000 columns and 65560 rows in which every
operating-system call succeeds. -/
def wideCall : CreateArgs :=
  { okCall 100 101 200 with cols := 40000, rows := 65560, dwFlags := 7 }

/-- The outputs of a successful `createSession` for the session name `sess1`
as the second session of the process. -/
def sess1Outputs : CreateOutputs :=
  { ptyId := 2, hIn := 100, inName := L "\\\\.\\pipe\\sess1-in" ++ [0], hOut := 101,
    outName := L "\\\\.\\pipe\\sess1-out" ++ [0] }

/-! ## Arithmetic of the 32-bit counter -/

theorem toInt32_succ (n : Int) : toInt32 (toInt32 n + 1) = toInt32 (n + 1) := by
  unfold toInt32; omega

theorem toInt32_of_small (n : Int) (h0 : -2147483648 ≤ n) (h1 : n < 2147483648) :
    toInt32 n = n := by
  unfold toInt32; omega

theorem toInt32_inj_near (a b : Int) (h : toInt32 a = toInt32 b)
    (h0 : -4294967296 < a - b) (h1 : a - b < 4294967296) : a = b := by
  unfold toInt32 at h; omega

theorem Reg_init : Reg 0 State.init := by
  constructor <;> simp [State.init, toInt32]

/-! ## One `createSession` call -/

theorem createSession_hr (st : State) (c : CreateArgs) :
    (createSession st c).hr =
      (CreateNamedPipesAndPseudoConsole c.os
        { X := toInt16 (c.cols : Int), Y := toInt16 (c.rows : Int) } c.dwFlags
        (some c.os.uninitIn) (some c.os.uninitOut) (some c.os.uninitPc) [] []
        c.ppipeName).hr := by
  unfold createSession CreateNamedPipesAndPseudoConsole_C
  dsimp only
  split <;> rfl

theorem createSession_trace (st : State) (c : CreateArgs) :
    (createSession st c).trace =
      (CreateNamedPipesAndPseudoConsole c.os
        { X := toInt16 (c.cols : Int), Y := toInt16 (c.rows : Int) } c.dwFlags
        (some c.os.uninitIn) (some c.os.uninitOut) (some c.os.uninitPc) [] []
        c.ppipeName).trace := by
  unfold createSession CreateNamedPipesAndPseudoConsole_C
  dsimp only
  split <;> rfl

theorem createSession_failed (st : State) (c : CreateArgs)
    (h : (createSession st c).hr < 0) :
    (createSession st c).state = st ∧ (createSession st c).outputs = none ∧
      (createSession st c).inserted = none := by
  rw [createSession_hr] at h
  unfold createSession CreateNamedPipesAndPseudoConsole_C
  dsimp only
  have hs : SUCCEEDED (CreateNamedPipesAndPseudoConsole c.os
      { X := toInt16 (c.cols : Int), Y := toInt16 (c.rows : Int) } c.dwFlags
      (some c.os.uninitIn) (some c.os.uninitOut) (some c.os.uninitPc) [] []
      c.ppipeName).hr = false := by
    simp only [SUCCEEDED, decide_eq_false_iff_not, not_le]; exact h
  rw [hs]
  simp

theorem createSession_succeeded (st : State) (c : CreateArgs)
    (h : 0 ≤ (createSession st c).hr) :
    ∃ b : pty_baton, b.id = toInt32 (st.ptyCounter + 1) ∧
      (createSession st c).inserted = some b ∧
      (createSession st c).state =
        { ptyHandles := st.ptyHandles ++ [b], ptyCounter := b.id } ∧
      ∃ o : CreateOutputs, (createSession st c).outputs = some o ∧
        o.ptyId = b.id ∧ o.hIn = b.hIn ∧ o.hOut = b.hOut := by
  rw [createSession_hr] at h
  unfold createSession CreateNamedPipesAndPseudoConsole_C
  dsimp only
  have hs : SUCCEEDED (CreateNamedPipesAndPseudoConsole c.os
      { X := toInt16 (c.cols : Int), Y := toInt16 (c.rows : Int) } c.dwFlags
      (some c.os.uninitIn) (some c.os.uninitOut) (some c.os.uninitPc) [] []
      c.ppipeName).hr = true := by
    simp only [SUCCEEDED, decide_eq_true_eq]; exact h
  rw [hs]
  simp only [if_true]
  exact ⟨_, rfl, rfl, rfl, _, rfl, rfl, rfl, rfl⟩

theorem createSession_Reg (n : Nat) (st : State) (c : CreateArgs) (hr : Reg n st) :
    ((createSession st c).outputs = none ∧ (createSession st c).state = st) ∨
    (∃ o, (createSession st c).outputs = some o ∧ o.ptyId = idOf n ∧
      Reg (n + 1) (createSession st c).state) := by
  rcases lt_or_le (createSession st c).hr 0 with h | h
  · left
    have := createSession_failed st c h
    exact ⟨this.2.1, this.1⟩
  · right
    obtain ⟨b, hb, _, hst, o, ho, hid, _, _⟩ := createSession_succeeded st c h
    have hbid : b.id = idOf n := by
      rw [hb, hr.1, toInt32_succ]; rfl
    refine ⟨o, ho, hid.trans hbid, ?_⟩
    rw [hst]
    constructor
    · simp only [hbid, idOf]; push_cast; rfl
    · simp only [List.map_append, hr.2, List.range_succ, List.map_cons, List.map_nil, hbid]

/-! ## Sequences of `createSession` calls -/

theorem returnedIds_cons_none (r : CreateResult) (rs : List CreateResult)
    (h : r.outputs = none) : returnedIds (r :: rs) = returnedIds rs := by
  simp [returnedIds, List.filterMap_cons, h]

theorem returnedIds_cons_some (r : CreateResult) (rs : List CreateResult)
    (o : CreateOutputs) (h : r.outputs = some o) :
    returnedIds (r :: rs) = o.ptyId :: returnedIds rs := by
  simp [returnedIds, List.filterMap_cons, h]

theorem run_ids (calls : List CreateArgs) : ∀ (st : State) (n : Nat), Reg n st →
    returnedIds (runCreate st calls) =
        (List.range' n (returnedIds (runCreate st calls)).length).map idOf ∧
      Reg (n + (returnedIds (runCreate st calls)).length) (finalState st calls) := by
  induction calls with
  | nil =>
    intro st n hr
    simpa [runCreate, returnedIds, finalState] using hr
  | cons c cs ih =>
    intro st n hr
    rcases createSession_Reg n st c hr with ⟨ho, hst⟩ | ⟨o, ho, hid, hreg⟩
    · have h1 := ih st n hr
      simp only [runCreate, finalState, hst, returnedIds_cons_none _ _ ho]
      exact h1
    · have h1 := ih (createSession st c).state (n + 1) hreg
      simp only [runCreate, finalState, returnedIds_cons_some _ _ o ho, List.length_cons,
        List.range'_succ, List.map_cons, hid]
      refine ⟨?_, ?_⟩
      · rw [← h1.1]
      · have e : n + ((returnedIds (runCreate (createSession st c).state cs)).length + 1) =
            n + 1 + (returnedIds (runCreate (createSession st c).state cs)).length := by omega
        rw [e]; exact h1.2

theorem run_ids_init (calls : List CreateArgs) :
    returnedIds (runCreate State.init calls) =
      (List.range (returnedIds (runCreate State.init calls)).length).map idOf := by
  have h := (run_ids calls State.init 0 Reg_init).1
  rw [List.range_eq_range']
  exact h

theorem idOf_small (k : Nat) (h : k + 1 < 2147483648) : idOf k = (k : Int) + 1 := by
  unfold idOf
  apply toInt32_of_small <;> omega

theorem idOf_inj (i j : Nat) (hi : i < 4294967296) (hj : j < 4294967296)
    (h : idOf i = idOf j) : i = j := by
  unfold idOf at h
  have := toInt32_inj_near _ _ h (by omega) (by omega)
  omega

theorem idOf_strictMono_small (m : Nat) (hm : m < 2147483648) :
    ((List.range m).map idOf).Pairwise (fun a b => a < b) := by
  rw [List.pairwise_map]
  have hr : ∀ a ∈ List.range m, ∀ b ∈ List.range m, a < b → idOf a < idOf b := by
    intro a ha b hb hab
    rw [List.mem_range] at ha hb
    rw [idOf_small a (by omega), idOf_small b (by omega)]
    omega
  exact (List.pairwise_lt_range m).imp_of_mem (fun ha hb hab => hr _ ha _ hb hab)

theorem idOf_nodup (m : Nat) (hm : m ≤ 4294967296) : ((List.range m).map idOf).Nodup := by
  apply List.Nodup.map_on _ (List.nodup_range m)
  intro a ha b hb hab
  rw [List.mem_range] at ha hb
  exact idOf_inj a b (by omega) (by omega) hab

theorem okCall_hr (st : State) (hIn hOut : HANDLE) (hpc : HPCON)
    (h1 : hIn ≠ INVALID_HANDLE_VALUE) (h2 : hOut ≠ INVALID_HANDLE_VALUE) :
    (createSession st (okCall hIn hOut hpc)).hr = 0 := by
  rw [createSession_hr]
  simp [okCall, CreateNamedPipesAndPseudoConsole, createDataServerPipe, h1, h2]

theorem replicate_ids_length (c : CreateArgs) (hc : ∀ st, 0 ≤ (createSession st c).hr)
    (N : Nat) : ∀ st, (returnedIds (runCreate st (List.replicate N c))).length = N := by
  induction N with
  | zero => intro st; simp [runCreate, returnedIds]
  | succ N ih =>
    intro st
    obtain ⟨b, _, _, _, o, ho, _⟩ := createSession_succeeded st c (hc st)
    simp only [List.replicate_succ, runCreate, returnedIds_cons_some _ _ o ho, List.length_cons,
      ih]

theorem replicate_ids (c : CreateArgs) (hc : ∀ st, 0 ≤ (createSession st c).hr) (N : Nat) :
    returnedIds (runCreate State.init (List.replicate N c)) = (List.range N).map idOf := by
  have h := run_ids_init (List.replicate N c)
  rw [replicate_ids_length c hc N State.init] at h
  exact h

theorem idOf_getElem (N i : Nat) (hi : i < ((List.range N).map idOf).length) :
    ((List.range N).map idOf)[i] = idOf i := by
  simp

/-! ## C1: session ids -/

/-- C1 (amended): for every serialized sequence of `createSession` calls from
the initial state, the returned session ids are the successive values of the
32-bit counter `ptyCounter` after `InterlockedIncrement`; they are strictly
increasing as long as fewer than 2^31 calls have succeeded, and pairwise
distinct as long as at most 2^32 calls have succeeded. -/
theorem session_ids_increasing_below_wrap (calls : List CreateArgs) :
    returnedIds (runCreate State.init calls) =
        (List.range (returnedIds (runCreate State.init calls)).length).map
          (fun k : Nat => toInt32 ((k : Int) + 1)) ∧
      ((returnedIds (runCreate State.init calls)).length < 2147483648 →
        (returnedIds (runCreate State.init calls)).Pairwise (fun a b => a < b)) ∧
      ((returnedIds (runCreate State.init calls)).length ≤ 4294967296 →
        (returnedIds (runCreate State.init calls)).Nodup) := by
  refine ⟨run_ids_init calls, ?_, ?_⟩
  · intro h
    rw [run_ids_init calls]
    exact idOf_strictMono_small _ h
  · intro h
    rw [run_ids_init calls]
    exact idOf_nodup _ h

/-- C1, witness: three calls, the second of which fails, return the ids 1 and 2. -/
theorem session_ids_increasing_below_wrap_witness :
    returnedIds (runCreate State.init
        [okCall 100 101 200, pipeBusyCall, okCall 104 105 202]) = [1, 2] ∧
      (returnedIds (runCreate State.init
        [okCall 100 101 200, pipeBusyCall, okCall 104 105 202])).Pairwise
          (fun a b => a < b) ∧
      (returnedIds (runCreate State.init
        [okCall 100 101 200, pipeBusyCall, okCall 104 105 202])).Nodup :=
  ⟨by decide,
   (session_ids_increasing_below_wrap
      [okCall 100 101 200, pipeBusyCall, okCall 104 105 202]).2.1 (by decide),
   (session_ids_increasing_below_wrap
      [okCall 100 101 200, pipeBusyCall, okCall 104 105 202]).2.2 (by decide)⟩

/-- C1, counterexample: after 2^31 successful calls the last id, -2^31, is
smaller than the first, 1; after 2^32 + 1 successful calls the last id equals
the first. -/
theorem session_ids_wrap_counterexample :
    ¬ (returnedIds (runCreate State.init
          (List.replicate 2147483648 (okCall 100 101 200)))).Pairwise (fun a b => a < b) ∧
      ¬ (returnedIds (runCreate State.init
          (List.replicate 4294967297 (okCall 100 101 200)))).Nodup := by
  have hc : ∀ st, 0 ≤ (createSession st (okCall 100 101 200)).hr := by
    intro st
    rw [okCall_hr st 100 101 200 (by decide) (by decide)]
  constructor
  · rw [replicate_ids _ hc]
    intro h
    rw [List.pairwise_iff_getElem] at h
    have h1 := h 0 2147483647 (by rw [List.length_map, List.length_range]; omega)
      (by rw [List.length_map, List.length_range]; omega) (by omega)
    rw [idOf_getElem, idOf_getElem] at h1
    revert h1
    unfold idOf toInt32
    decide
  · rw [replicate_ids _ hc]
    intro h
    rw [List.Nodup, List.pairwise_iff_getElem] at h
    have h1 := h 0 4294967296 (by rw [List.length_map, List.length_range]; omega)
      (by rw [List.length_map, List.length_range]; omega) (by omega)
    rw [idOf_getElem, idOf_getElem] at h1
    revert h1
    unfold idOf toInt32
    decide

/-! ## One `attachAndSpawn` call -/

theorem get_pty_baton_none (l : List pty_baton) (id : Int) (h : ∀ b ∈ l, b.id ≠ id) :
    get_pty_baton l id = none := by
  induction l with
  | nil => rfl
  | cons b bs ih =>
    have hb : b.id ≠ id := h b (List.mem_cons_self b bs)
    simp only [get_pty_baton, hb, if_false]
    exact ih (fun x hx => h x (List.mem_cons_of_mem b hx))

theorem get_pty_baton_append (l1 l2 : List pty_baton) (b : pty_baton) (id : Int)
    (h : ∀ x ∈ l1, x.id ≠ id) (hb : b.id = id) :
    get_pty_baton (l1 ++ b :: l2) id = some b := by
  induction l1 with
  | nil => simp [get_pty_baton, hb]
  | cons x xs ih =>
    have hx : x.id ≠ id := h x (List.mem_cons_self x xs)
    simp only [List.cons_append, get_pty_baton, hx, if_false]
    exact ih (fun y hy => h y (List.mem_cons_of_mem x hy))

theorem StringCchCopyW_fits (ws : WString) (h : ws.length < STRSAFE_MAX_CCH) :
    StringCchCopyW (ws.length + 1) (c_str ws) = (0, c_str ws) := by
  have hl : (c_str ws).length ≤ ws.length := by
    unfold c_str; exact (List.takeWhile_sublist _).length_le
  unfold StringCchCopyW
  rw [if_neg (by omega), if_pos (by omega)]

theorem PtyConnect_trace_nil_of_none (st : State) (os : ConnectOS) (id : Int)
    (cmdline cwd env : WString) (h : get_pty_baton st.ptyHandles id = none) :
    (PtyConnect st os id cmdline cwd env).trace = [] := by
  unfold PtyConnect
  simp only [h]
  split_ifs <;> rfl

theorem PtyConnect_trace_allowed (st : State) (os : ConnectOS) (id : Int)
    (cmdline cwd env : WString) (handle : pty_baton)
    (h : get_pty_baton st.ptyHandles id = some handle) :
    ∀ c ∈ (PtyConnect st os id cmdline cwd env).trace,
      c ∈ allowedCalls handle cmdline cwd env := by
  unfold PtyConnect allowedCalls vectorFromString
  simp only [h]
  intro c hc
  split_ifs at hc <;> simp at hc ⊢ <;> aesop

theorem PtyConnect_createProcess_count (st : State) (os : ConnectOS) (id : Int)
    (cmdline cwd env : WString) :
    ((PtyConnect st os id cmdline cwd env).trace.filter Call.isCreateProcess).length ≤ 1 := by
  unfold PtyConnect
  cases h : get_pty_baton st.ptyHandles id with
  | none => simp only []; split_ifs <;> simp
  | some handle => simp only []; split_ifs <;> simp [Call.isCreateProcess, List.filter]

theorem PtyConnect_none (st : State) (os : ConnectOS) (id : Int) (cmdline cwd env : WString)
    (h : get_pty_baton st.ptyHandles id = none)
    (h1 : cmdline.length < STRSAFE_MAX_CCH) (h2 : cwd.length < STRSAFE_MAX_CCH) :
    PtyConnect st os id cmdline cwd env = { outcome := .nullDereference, trace := [] } := by
  unfold PtyConnect
  simp only [h, StringCchCopyW_fits cmdline h1, StringCchCopyW_fits cwd h2]
  simp [SUCCEEDED]

theorem PtyConnect_some (st : State) (os : ConnectOS) (id : Int) (cmdline cwd env : WString)
    (handle : pty_baton) (h : get_pty_baton st.ptyHandles id = some handle)
    (h1 : cmdline.length < STRSAFE_MAX_CCH) (h2 : cwd.length < STRSAFE_MAX_CCH)
    (hconn : os.ndebug = true ∨ (os.connectIn = true ∧ os.connectOut = true)) :
    (PtyConnect st os id cmdline cwd env).outcome =
      (if os.initAttr = false then Outcome.returned (-1) none
       else if os.updateAttr = false then Outcome.returned (-2) none
       else if os.createProcess = false then Outcome.returned (-3) none
       else Outcome.returned (toInt32 (os.dwProcessId : Int)) (some os.hProcess)) := by
  unfold PtyConnect
  simp only [h, StringCchCopyW_fits cmdline h1, StringCchCopyW_fits cwd h2]
  have hs : SUCCEEDED (0 : Int) = true := by decide
  simp only [hs]
  have hc : (!(os.connectIn && os.connectOut) && !os.ndebug) = false := by
    rcases hconn with h | ⟨h, h3⟩ <;> simp [h, *]
  simp only [hc]
  split_ifs <;> simp_all

/-- C2 (code defect): for every registry state and every session id that no
registered session carries, `PtyConnect` dereferences the null pointer that
`get_pty_baton` returned, before any operating-system call; it returns no
`SessionNotFound` code. -/
theorem attach_missing_session_dereferences_null (st : State) (os : ConnectOS) (id : Int)
    (cmdline cwd env : WString) (hmiss : ∀ b ∈ st.ptyHandles, b.id ≠ id)
    (h1 : cmdline.length < STRSAFE_MAX_CCH) (h2 : cwd.length < STRSAFE_MAX_CCH) :
    PtyConnect st os id cmdline cwd env =
      { outcome := Outcome.nullDereference, trace := [] } :=
  PtyConnect_none st os id cmdline cwd env (get_pty_baton_none _ _ hmiss) h1 h2

/-- C2, witness: the empty registry and the id 1. -/
theorem attach_missing_session_dereferences_null_witness :
    PtyConnect State.init (okSpawn 4242) 1 (L "cmd.exe") (L "C:\\") (L "A=B" ++ [0, 0]) =
      { outcome := Outcome.nullDereference, trace := [] } :=
  attach_missing_session_dereferences_null State.init (okSpawn 4242) 1 (L "cmd.exe")
    (L "C:\\") (L "A=B" ++ [0, 0]) (by simp [State.init]) (by decide) (by decide)

/-- C7 (amended): for a registered session whose strings fit and whose
handshake succeeds (or with assertions compiled out), `PtyConnect` returns -1
when the attribute list cannot be initialised, -2 when the attribute cannot be
set, -3 when the process cannot be created, and otherwise the process
identifier converted to `int32_t` together with the process handle; the three
codes are pairwise distinct, and the success value is none of them whenever
the process identifier is below 0xFFFFFFFD. -/
theorem attach_return_codes (st : State) (os : ConnectOS) (id : Int)
    (cmdline cwd env : WString) (handle : pty_baton)
    (hreg : get_pty_baton st.ptyHandles id = some handle)
    (h1 : cmdline.length < STRSAFE_MAX_CCH) (h2 : cwd.length < STRSAFE_MAX_CCH)
    (hconn : os.ndebug = true ∨ (os.connectIn = true ∧ os.connectOut = true)) :
    (os.initAttr = false →
      (PtyConnect st os id cmdline cwd env).outcome = Outcome.returned (-1) none) ∧
    (os.initAttr = true → os.updateAttr = false →
      (PtyConnect st os id cmdline cwd env).outcome = Outcome.returned (-2) none) ∧
    (os.initAttr = true → os.updateAttr = true → os.createProcess = false →
      (PtyConnect st os id cmdline cwd env).outcome = Outcome.returned (-3) none) ∧
    (os.initAttr = true → os.updateAttr = true → os.createProcess = true →
      (PtyConnect st os id cmdline cwd env).outcome =
        Outcome.returned (toInt32 (os.dwProcessId : Int)) (some os.hProcess)) ∧
    (Outcome.returned (-1) none ≠ Outcome.returned (-2) none ∧
      Outcome.returned (-1) none ≠ Outcome.returned (-3) none ∧
      Outcome.returned (-2) none ≠ Outcome.returned (-3) none) ∧
    (os.dwProcessId < 4294967293 →
      toInt32 (os.dwProcessId : Int) ≠ -1 ∧ toInt32 (os.dwProcessId : Int) ≠ -2 ∧
        toInt32 (os.dwProcessId : Int) ≠ -3) := by
  have h := PtyConnect_some st os id cmdline cwd env handle hreg h1 h2 hconn
  refine ⟨?_, ?_, ?_, ?_, ?_, ?_⟩
  · intro a; rw [h]; simp [a]
  · intro a b; rw [h]; simp [a, b]
  · intro a b c; rw [h]; simp [a, b, c]
  · intro a b c; rw [h]; simp [a, b, c]
  · decide
  · intro hp
    have hp2 : ((os.dwProcessId : Nat) : Int) < 4294967293 := by exact_mod_cast hp
    have hp3 : (0 : Int) ≤ ((os.dwProcessId : Nat) : Int) := Int.ofNat_nonneg _
    unfold toInt32
    omega

/-- C7, witness: a registered session and a spawn that succeeds with process
identifier 4242. -/
theorem attach_return_codes_witness :
    (PtyConnect oneSession (okSpawn 4242) 1 (L "cmd.exe") (L "C:\\")
        (L "A=B" ++ [0, 0])).outcome = Outcome.returned 4242 (some 500) :=
  (attach_return_codes oneSession (okSpawn 4242) 1 (L "cmd.exe") (L "C:\\")
    (L "A=B" ++ [0, 0]) { id := 1, hIn := 100, hOut := 101, hpc := 200 } (by decide)
    (by decide) (by decide) (Or.inr ⟨rfl, rfl⟩)).2.2.2.1 rfl rfl rfl

/-- C7, counterexample: with no session of the given id the call returns no
code at all (it dereferences null), and a successful spawn whose process
identifier is 0xFFFFFFFF returns -1, the code of a failed attribute-list
initialisation. -/
theorem attach_codes_collide_counterexample :
    (PtyConnect State.init (okSpawn 4242) 1 (L "cmd.exe") (L "C:\\")
        (L "A=B" ++ [0, 0])).outcome = Outcome.nullDereference ∧
    (PtyConnect oneSession (okSpawn 4294967295) 1 (L "cmd.exe") (L "C:\\")
        (L "A=B" ++ [0, 0])).outcome = Outcome.returned (-1) (some 500) ∧
    (PtyConnect oneSession { okSpawn 4242 with initAttr := false } 1 (L "cmd.exe") (L "C:\\")
        (L "A=B" ++ [0, 0])).outcome = Outcome.returned (-1) none := by
  decide

theorem HRESULT_FROM_WIN32_neg (x : DWORD) (h0 : x ≠ 0) (h1 : x < 4294967296) :
    HRESULT_FROM_WIN32 x < 0 := by
  have hx0 : (0 : Int) < ((x : Nat) : Int) := by
    have : 0 < x := Nat.pos_of_ne_zero h0
    exact_mod_cast this
  have hx1 : ((x : Nat) : Int) < 4294967296 := by exact_mod_cast h1
  unfold HRESULT_FROM_WIN32
  split_ifs with hle
  · have hne : toInt32 ((x : Nat) : Int) ≠ 0 := by
      unfold toInt32; omega
    exact lt_of_le_of_ne hle hne
  · have hlo : 2 ^ 31 ≤ ((x &&& 0x0000FFFF) ||| (FACILITY_WIN32 <<< 16) ||| 0x80000000 : Nat) := by
      apply Nat.testBit_implies_ge
      rw [Nat.testBit_or]
      have : Nat.testBit 0x80000000 31 = true := by decide
      rw [this, Bool.or_true]
    have hhi : ((x &&& 0x0000FFFF) ||| (FACILITY_WIN32 <<< 16) ||| 0x80000000 : Nat) < 2 ^ 32 := by
      apply Nat.or_lt_two_pow
      · apply Nat.or_lt_two_pow
        · exact lt_of_lt_of_le (Nat.and_lt_two_pow x (by decide : 0x0000FFFF < 2 ^ 16)) (by decide)
        · decide
      · decide
    generalize ((x &&& 0x0000FFFF) ||| (FACILITY_WIN32 <<< 16) ||| 0x80000000 : Nat) = v at hlo hhi
    have h2 : (2147483648 : Int) ≤ ((v : Nat) : Int) := by
      have : 2147483648 ≤ v := by simpa using hlo
      exact_mod_cast this
    have h3 : ((v : Nat) : Int) < 4294967296 := by
      have : v < 4294967296 := by simpa using hhi
      exact_mod_cast this
    have key : (v : Int) + 2147483648 - 4294967296 < 4294967296 ∧
        0 ≤ (v : Int) + 2147483648 - 4294967296 := by omega
    have key2 : toInt32 ((v : Nat) : Int) = (v : Int) - 4294967296 := by
      unfold toInt32; omega
    rw [key2]
    exact (by omega : (v : Int) - 4294967296 < 0)

theorem inner_unresolved (os : CreateOS) (size : COORD) (dwFlags : DWORD)
    (phInput phOutput : Option HANDLE) (phPC : Option HPCON)
    (inName outName pipeName : WString) (h : os.hLibrary = 0 ∨ os.pfnCreate = false) :
    (CreateNamedPipesAndPseudoConsole os size dwFlags phInput phOutput phPC inName outName
        pipeName).hr = HRESULT_FROM_WIN32 os.lastError ∧
      ∀ call ∈ (CreateNamedPipesAndPseudoConsole os size dwFlags phInput phOutput phPC inName
        outName pipeName).trace, call.isResourceCreation = false := by
  unfold CreateNamedPipesAndPseudoConsole
  by_cases hl : os.hLibrary = 0
  · simp [hl, Call.isResourceCreation]
  · have hp : os.pfnCreate = false := by
      rcases h with h | h
      · exact absurd h hl
      · exact h
    simp [hl, hp, Call.isResourceCreation]

/-- C4: whenever the `CreatePseudoConsole` entry point cannot be resolved
(kernel32 cannot be loaded, or `GetProcAddress` returns null), for every error
code the failed call reports (a nonzero `DWORD`), `createSession` returns the
failure result `HRESULT_FROM_WIN32(GetLastError())`, creates no pipe and no
console, inserts no registry record, leaves the registry and the counter as
they were and writes none of its output parameters. -/
theorem unresolved_entry_point_fails (st : State) (c : CreateArgs)
    (hun : c.os.hLibrary = 0 ∨ c.os.pfnCreate = false)
    (h0 : c.os.lastError ≠ 0) (h1 : c.os.lastError < 4294967296) :
    (createSession st c).hr = HRESULT_FROM_WIN32 c.os.lastError ∧
    (createSession st c).hr < 0 ∧
    (∀ call ∈ (createSession st c).trace, call.isResourceCreation = false) ∧
    (createSession st c).inserted = none ∧
    (createSession st c).state = st ∧
    (createSession st c).outputs = none := by
  have hi := inner_unresolved c.os { X := toInt16 (c.cols : Int), Y := toInt16 (c.rows : Int) }
    c.dwFlags (some c.os.uninitIn) (some c.os.uninitOut) (some c.os.uninitPc) [] []
    c.ppipeName hun
  have hhr : (createSession st c).hr = HRESULT_FROM_WIN32 c.os.lastError := by
    rw [createSession_hr]; exact hi.1
  have hneg : (createSession st c).hr < 0 := by
    rw [hhr]; exact HRESULT_FROM_WIN32_neg _ h0 h1
  obtain ⟨f1, f2, f3⟩ := createSession_failed st c hneg
  refine ⟨hhr, hneg, ?_, f3, f1, f2⟩
  rw [createSession_trace]; exact hi.2

/-- C4, witness: `GetProcAddress` fails with `ERROR_PROC_NOT_FOUND` (127), and
`LoadLibraryExW` fails with `ERROR_MOD_NOT_FOUND` (126). -/
theorem unresolved_entry_point_fails_witness :
    ((createSession oneSession procNotFoundCall).hr = -2147024769 ∧
      (createSession oneSession procNotFoundCall).state = oneSession ∧
      (createSession oneSession procNotFoundCall).outputs = none) ∧
    ((createSession oneSession moduleNotFoundCall).hr = -2147024770 ∧
      (createSession oneSession moduleNotFoundCall).state = oneSession ∧
      (createSession oneSession moduleNotFoundCall).outputs = none) :=
  ⟨⟨(unresolved_entry_point_fails oneSession procNotFoundCall (Or.inr rfl)
        (by decide) (by decide)).1.trans (by decide),
     (unresolved_entry_point_fails oneSession procNotFoundCall (Or.inr rfl)
        (by decide) (by decide)).2.2.2.2.1,
     (unresolved_entry_point_fails oneSession procNotFoundCall (Or.inr rfl)
        (by decide) (by decide)).2.2.2.2.2⟩,
   ⟨(unresolved_entry_point_fails oneSession moduleNotFoundCall (Or.inl rfl)
        (by decide) (by decide)).1.trans (by decide),
     (unresolved_entry_point_fails oneSession moduleNotFoundCall (Or.inl rfl)
        (by decide) (by decide)).2.2.2.2.1,
     (unresolved_entry_point_fails oneSession moduleNotFoundCall (Or.inl rfl)
        (by decide) (by decide)).2.2.2.2.2⟩⟩

/-- C5: a `createSession` call that returns a failure `HRESULT` leaves the
registry `ptyHandles` and the counter `ptyCounter` as they were, inserts no
record, and writes none of its output parameters. -/
theorem failed_createSession_changes_nothing (st : State) (c : CreateArgs)
    (h : (createSession st c).hr < 0) :
    (createSession st c).state.ptyHandles = st.ptyHandles ∧
      (createSession st c).state.ptyCounter = st.ptyCounter ∧
      (createSession st c).inserted = none ∧ (createSession st c).outputs = none := by
  obtain ⟨h1, h2, h3⟩ := createSession_failed st c h
  rw [h1]
  exact ⟨rfl, rfl, h3, h2⟩

/-- C5, witness: both pipes are created and the console binding fails with
`E_FAIL`. -/
theorem failed_createSession_changes_nothing_witness :
    (createSession oneSession bindingFailedCall).state.ptyHandles = oneSession.ptyHandles ∧
      (createSession oneSession bindingFailedCall).state.ptyCounter = oneSession.ptyCounter ∧
      (createSession oneSession bindingFailedCall).inserted = none ∧
      (createSession oneSession bindingFailedCall).outputs = none :=
  failed_createSession_changes_nothing oneSession bindingFailedCall (by decide)

theorem createSession_outputs_names (st : State) (c : CreateArgs) (o : CreateOutputs)
    (ho : (createSession st c).outputs = some o) :
    o.inName = handoff (CreateNamedPipesAndPseudoConsole c.os
        { X := toInt16 (c.cols : Int), Y := toInt16 (c.rows : Int) } c.dwFlags
        (some c.os.uninitIn) (some c.os.uninitOut) (some c.os.uninitPc) [] []
        c.ppipeName).inName ∧
    o.outName = handoff (CreateNamedPipesAndPseudoConsole c.os
        { X := toInt16 (c.cols : Int), Y := toInt16 (c.rows : Int) } c.dwFlags
        (some c.os.uninitIn) (some c.os.uninitOut) (some c.os.uninitPc) [] []
        c.ppipeName).outName := by
  unfold createSession CreateNamedPipesAndPseudoConsole_C at ho
  dsimp only at ho
  split at ho
  · simp only [Option.some.injEq] at ho
    subst ho
    exact ⟨rfl, rfl⟩
  · simp at ho

theorem inner_inName (os : CreateOS) (size : COORD) (dwFlags : DWORD)
    (a b : HANDLE) (p : HPCON) (pipeName : WString)
    (hl : os.hLibrary ≠ 0) (hp : os.pfnCreate = true) :
    (CreateNamedPipesAndPseudoConsole os size dwFlags (some a) (some b) (some p) [] []
        pipeName).inName = L "\\\\.\\pipe\\" ++ pipeName ++ L "-in" := by
  have e : L "-" ++ L "in" = L "-in" := by decide
  unfold CreateNamedPipesAndPseudoConsole createDataServerPipe
  simp only [hl, hp, ne_eq, not_false_eq_true, decide_True, if_true, Option.isNone_some,
    Bool.or_self, Bool.false_eq_true, if_false]
  split_ifs <;> simp [← e]

theorem inner_outName (os : CreateOS) (size : COORD) (dwFlags : DWORD)
    (a b : HANDLE) (p : HPCON) (pipeName : WString)
    (hl : os.hLibrary ≠ 0) (hp : os.pfnCreate = true)
    (hi : os.pipeIn ≠ INVALID_HANDLE_VALUE) :
    (CreateNamedPipesAndPseudoConsole os size dwFlags (some a) (some b) (some p) [] []
        pipeName).outName = L "\\\\.\\pipe\\" ++ pipeName ++ L "-out" := by
  have e : L "-" ++ L "out" = L "-out" := by decide
  unfold CreateNamedPipesAndPseudoConsole createDataServerPipe
  simp only [hl, hp, hi, ne_eq, not_false_eq_true, decide_True, if_true, Option.isNone_some,
    Bool.or_self, Bool.false_eq_true, if_false, Bool.not_true]
  split_ifs <;> simp [← e]

/-- C6: the name `createDataServerPipe` builds is the prefix `\\.\pipe\`, the
session name, `-` and the direction tag, whatever `CreateNamedPipeW` answers
and whatever the flag `write`; it is the name passed to `CreateNamedPipeW`;
and whenever `createSession` writes its outputs after building a channel name,
the returned input name is the prefix, the session name and `-in`, the
returned output name the prefix, the session name and `-out`, each with its
terminating null, for every registry and counter. -/
theorem channel_names_deterministic (s : WString) :
    (∀ (created : HANDLE) (write : Bool) (kind : WString),
      (createDataServerPipe created write kind s).name =
          L "\\\\.\\pipe\\" ++ s ++ L "-" ++ kind ∧
        ∀ n m p i o q t, Call.CreateNamedPipeW n m p i o q t ∈
          (createDataServerPipe created write kind s).trace →
            n = L "\\\\.\\pipe\\" ++ s ++ L "-" ++ kind) ∧
    (∀ (st : State) (c : CreateArgs) (o : CreateOutputs), c.ppipeName = s →
      c.os.hLibrary ≠ 0 → c.os.pfnCreate = true → (createSession st c).outputs = some o →
        o.inName = L "\\\\.\\pipe\\" ++ s ++ L "-in" ++ [0] ∧
        (c.os.pipeIn ≠ INVALID_HANDLE_VALUE →
          o.outName = L "\\\\.\\pipe\\" ++ s ++ L "-out" ++ [0])) := by
  refine ⟨?_, ?_⟩
  · intro created write kind
    refine ⟨rfl, ?_⟩
    intro n m p i o q t h
    simp only [createDataServerPipe, List.mem_singleton, Call.CreateNamedPipeW.injEq] at h
    exact h.1
  · intro st c o hs hl hp ho
    obtain ⟨h1, h2⟩ := createSession_outputs_names st c o ho
    subst hs
    refine ⟨?_, ?_⟩
    · rw [h1, inner_inName _ _ _ _ _ _ _ hl hp]; rfl
    · intro hi
      rw [h2, inner_outName _ _ _ _ _ _ _ hl hp hi]; rfl

/-- C6, witness: the session name `sess1`. -/
theorem channel_names_deterministic_witness :
    (createSession oneSession (okCall 100 101 200)).outputs = some sess1Outputs ∧
      sess1Outputs.inName = L "\\\\.\\pipe\\" ++ L "sess1" ++ L "-in" ++ [0] ∧
      sess1Outputs.outName = L "\\\\.\\pipe\\" ++ L "sess1" ++ L "-out" ++ [0] :=
  ⟨by decide,
   ((channel_names_deterministic (L "sess1")).2 oneSession (okCall 100 101 200)
      sess1Outputs rfl (by decide) rfl (by decide)).1,
   ((channel_names_deterministic (L "sess1")).2 oneSession (okCall 100 101 200)
      sess1Outputs rfl (by decide) rfl (by decide)).2 (by decide)⟩

theorem PtyConnect_inherit_false (st : State) (os : ConnectOS) (id : Int)
    (cmdline cwd env : WString) :
    ∀ cl inh fl e d sf, Call.CreateProcessW cl inh fl e d sf ∈
      (PtyConnect st os id cmdline cwd env).trace → inh = false := by
  intro cl inh fl e d sf h
  cases hg : get_pty_baton st.ptyHandles id with
  | none => rw [PtyConnect_trace_nil_of_none st os id cmdline cwd env hg] at h; simp at h
  | some handle =>
    have := PtyConnect_trace_allowed st os id cmdline cwd env handle hg _ h
    simp only [allowedCalls, List.mem_cons, List.mem_singleton, Call.CreateProcessW.injEq,
      List.mem_nil_iff, or_false, false_or, reduceCtorEq] at this
    exact this.2.1

/-- C8: every `CreateProcessW` call that `PtyConnect` issues, through either
overload, has `bInheritHandles = false`, for every state, session id, command
line, working directory, environment block and operating-system behaviour; and
each call of `PtyConnect` issues at most one `CreateProcessW`. -/
theorem spawn_never_inherits_handles (st : State) (os : ConnectOS) (id : Int) :
    (∀ (cmdline cwd env : WString),
      (∀ cl inh fl e d sf, Call.CreateProcessW cl inh fl e d sf ∈
        (PtyConnect st os id cmdline cwd env).trace → inh = false) ∧
      ((PtyConnect st os id cmdline cwd env).trace.filter Call.isCreateProcess).length ≤ 1) ∧
    (∀ (cmdline cwd env : List Int),
      (∀ cl inh fl e d sf, Call.CreateProcessW cl inh fl e d sf ∈
        (attachAndSpawn st os id cmdline cwd env).trace → inh = false) ∧
      ((attachAndSpawn st os id cmdline cwd env).trace.filter Call.isCreateProcess).length
        ≤ 1) := by
  refine ⟨?_, ?_⟩
  · intro cmdline cwd env
    exact ⟨PtyConnect_inherit_false st os id cmdline cwd env,
      PtyConnect_createProcess_count st os id cmdline cwd env⟩
  · intro cmdline cwd env
    unfold attachAndSpawn PtyConnect_C
    cases envlen env with
    | none => simp
    | some n =>
      exact ⟨PtyConnect_inherit_false st os id _ _ _,
        PtyConnect_createProcess_count st os id _ _ _⟩

/-- C8, witness: a spawn that succeeds issues one `CreateProcessW`, without
handle inheritance. -/
theorem spawn_never_inherits_handles_witness :
    Call.CreateProcessW (L "cmd.exe") false 0x00080400 (some (L "A=B" ++ [0, 0])) (L "C:\\")
        0x00000100 ∈
      (PtyConnect oneSession (okSpawn 4242) 1 (L "cmd.exe") (L "C:\\")
        (L "A=B" ++ [0, 0])).trace ∧
    ((PtyConnect oneSession (okSpawn 4242) 1 (L "cmd.exe") (L "C:\\")
        (L "A=B" ++ [0, 0])).trace.filter Call.isCreateProcess).length ≤ 1 :=
  ⟨by decide,
   ((spawn_never_inherits_handles oneSession (okSpawn 4242) 1).1 (L "cmd.exe") (L "C:\\")
      (L "A=B" ++ [0, 0])).2⟩

theorem inner_console_call (os : CreateOS) (size : COORD) (dwFlags : DWORD)
    (phInput phOutput : Option HANDLE) (phPC : Option HPCON)
    (inName outName pipeName : WString) (sz : COORD) (a b : HANDLE) (fl : DWORD)
    (h : Call.CreatePseudoConsole sz a b fl ∈
      (CreateNamedPipesAndPseudoConsole os size dwFlags phInput phOutput phPC inName outName
        pipeName).trace) :
    sz = size ∧ a = os.pipeIn ∧ b = os.pipeOut ∧ fl = dwFlags := by
  unfold CreateNamedPipesAndPseudoConsole createDataServerPipe at h
  dsimp only at h
  split_ifs at h <;> simp at h
  exact h

theorem inner_console_reached (os : CreateOS) (size : COORD) (dwFlags : DWORD)
    (x y : HANDLE) (p : HPCON) (inName outName pipeName : WString)
    (hl : os.hLibrary ≠ 0) (hp : os.pfnCreate = true)
    (hi : os.pipeIn ≠ INVALID_HANDLE_VALUE) (ho : os.pipeOut ≠ INVALID_HANDLE_VALUE) :
    Call.CreatePseudoConsole size os.pipeIn os.pipeOut dwFlags ∈
      (CreateNamedPipesAndPseudoConsole os size dwFlags (some x) (some y) (some p) inName
        outName pipeName).trace := by
  unfold CreateNamedPipesAndPseudoConsole createDataServerPipe
  simp [hl, hp, hi, ho]

theorem toInt16_of_small (n : Nat) (h : n < 32768) : toInt16 (n : Int) = (n : Int) := by
  have h1 : ((n : Nat) : Int) < 32768 := by exact_mod_cast h
  have h0 : (0 : Int) ≤ ((n : Nat) : Int) := Int.ofNat_nonneg n
  unfold toInt16
  omega

/-- C9 (amended): the size `createSession` passes to `CreatePseudoConsole` has
as width and height the low 16 bits of `cols` and `rows` read as signed
`SHORT`s, which are `cols` and `rows` themselves whenever these are below
32768; the flags are passed unchanged; and the call is made with these
arguments whenever the entry point is resolved and both pipes are created. -/
theorem console_size_is_short_of_columns_rows (st : State) (c : CreateArgs) :
    (∀ sz a b fl, Call.CreatePseudoConsole sz a b fl ∈ (createSession st c).trace →
      sz.X = toInt16 (c.cols : Int) ∧ sz.Y = toInt16 (c.rows : Int) ∧ fl = c.dwFlags ∧
        (c.cols < 32768 → sz.X = (c.cols : Int)) ∧ (c.rows < 32768 → sz.Y = (c.rows : Int))) ∧
    (c.os.hLibrary ≠ 0 → c.os.pfnCreate = true → c.os.pipeIn ≠ INVALID_HANDLE_VALUE →
      c.os.pipeOut ≠ INVALID_HANDLE_VALUE →
        Call.CreatePseudoConsole { X := toInt16 (c.cols : Int), Y := toInt16 (c.rows : Int) }
          c.os.pipeIn c.os.pipeOut c.dwFlags ∈ (createSession st c).trace) := by
  refine ⟨?_, ?_⟩
  · intro sz a b fl h
    rw [createSession_trace] at h
    obtain ⟨h1, _, _, h4⟩ := inner_console_call _ _ _ _ _ _ _ _ _ _ _ _ _ h
    subst h1
    refine ⟨rfl, rfl, h4, ?_, ?_⟩
    · intro hc; exact toInt16_of_small _ hc
    · intro hr; exact toInt16_of_small _ hr
  · intro hl hp hi ho
    rw [createSession_trace]
    exact inner_console_reached _ _ _ _ _ _ _ _ _ hl hp hi ho

/-- C9, witness: 80 columns, 24 rows. -/
theorem console_size_is_short_of_columns_rows_witness :
    Call.CreatePseudoConsole { X := 80, Y := 24 } 100 101 0 ∈
      (createSession oneSession (okCall 100 101 200)).trace ∧
    (80 : Int) = ((okCall 100 101 200).cols : Int) ∧
    (24 : Int) = ((okCall 100 101 200).rows : Int) :=
  ⟨(console_size_is_short_of_columns_rows oneSession (okCall 100 101 200)).2
      (by decide) rfl (by decide) (by decide),
   ((console_size_is_short_of_columns_rows oneSession (okCall 100 101 200)).1
      { X := 80, Y := 24 } 100 101 0 (by decide)).2.2.2.1 (by decide),
   ((console_size_is_short_of_columns_rows oneSession (okCall 100 101 200)).1
      { X := 80, Y := 24 } 100 101 0 (by decide)).2.2.2.2 (by decide)⟩

/-- C9, counterexample: with 40000 columns and 65560 rows the size passed to
`CreatePseudoConsole` is -25536 columns wide and 24 rows high. -/
theorem console_size_counterexample :
    Call.CreatePseudoConsole { X := -25536, Y := 24 } 100 101 7 ∈
      (createSession State.init wideCall).trace ∧
    Call.CreatePseudoConsole { X := 40000, Y := 65560 } 100 101 7 ∉
      (createSession State.init wideCall).trace ∧
    wideCall.cols = 40000 ∧ wideCall.rows = 65560 := by
  decide

theorem envlenFrom_skip (s : List Int) (hs : ∀ c ∈ s, c ≠ 0) :
    ∀ (i : Nat) (t : List Int), envlenFrom i (s ++ t) = envlenFrom (i + s.length) t := by
  induction s with
  | nil => intro i t; rfl
  | cons c cs ih =>
    intro i t
    have hc : c ≠ 0 := hs c (List.mem_cons_self c cs)
    have h := ih (fun x hx => hs x (List.mem_cons_of_mem c hx)) (i + 1) t
    have e : envlenFrom i (c :: (cs ++ t)) = envlenFrom (i + 1) (cs ++ t) := by
      simp only [envlenFrom, hc, if_false]
    rw [List.cons_append, e, h, List.length_cons]
    congr 1
    omega

theorem envlenFrom_end (i : Nat) (t : List Int) : envlenFrom i (0 :: 0 :: t) = some (i + 2) := by
  simp [envlenFrom]

theorem envlenFrom_separator (i : Nat) (d : Int) (t : List Int) (hd : d ≠ 0) :
    envlenFrom i (0 :: d :: t) = envlenFrom (i + 1) (d :: t) := by
  simp [envlenFrom, hd]

theorem envBlock_cons (s : List Int) (strs : List (List Int)) :
    envBlock (s :: strs) = s ++ 0 :: envBlock strs := by
  simp [envBlock]

theorem envlenFrom_block (strs : List (List Int)) :
    strs ≠ [] → (∀ s ∈ strs, s ≠ [] ∧ ∀ c ∈ s, c ≠ 0) →
    ∀ (i : Nat) (rest : List Int),
      envlenFrom i (envBlock strs ++ rest) = some (i + (envBlock strs).length) := by
  induction strs with
  | nil => intro h; exact absurd rfl h
  | cons s ss ih =>
    intro _ hall i rest
    have hs := hall s (List.mem_cons_self s ss)
    rw [envBlock_cons, List.append_assoc, envlenFrom_skip s hs.2]
    cases ss with
    | nil =>
      have e : envBlock [] = [0] := rfl
      rw [e]
      simp only [List.cons_append, List.nil_append, envlenFrom_end, List.length_append,
        List.length_cons, List.length_nil]
      congr 1
    | cons s2 more =>
      have hs2 := hall s2 (List.mem_cons_of_mem s (List.mem_cons_self s2 more))
      have ih2 := ih (by simp) (fun x hx => hall x (List.mem_cons_of_mem s hx))
        (i + s.length + 1) rest
      obtain ⟨d, s2t, hd⟩ : ∃ d s2t, s2 = d :: s2t := by
        cases s2 with
        | nil => exact absurd rfl hs2.1
        | cons d s2t => exact ⟨d, s2t, rfl⟩
      have hd0 : d ≠ 0 := hs2.2 d (by rw [hd]; exact List.mem_cons_self d s2t)
      have e2 : (0 :: envBlock (s2 :: more)) ++ rest =
          0 :: d :: (s2t ++ 0 :: envBlock more ++ rest) := by
        rw [envBlock_cons, hd]; simp
      have e3 : envBlock (s2 :: more) ++ rest = d :: (s2t ++ 0 :: envBlock more ++ rest) := by
        rw [envBlock_cons, hd]; simp
      rw [e2, envlenFrom_separator _ _ _ hd0, ← e3, ih2]
      simp only [List.length_append, List.length_cons]
      congr 1
      omega

theorem envlen_block (strs : List (List Int)) (hne : strs ≠ [])
    (hall : ∀ s ∈ strs, s ≠ [] ∧ ∀ c ∈ s, c ≠ 0) (rest : List Int) :
    envlen (envBlock strs ++ rest) = some (envBlock strs).length := by
  unfold envlen
  rw [envlenFrom_block strs hne hall 0 rest, Nat.zero_add]

theorem PtyConnect_env_passed (st : State) (os : ConnectOS) (id : Int)
    (cmdline cwd env : WString) :
    ∀ cl inh fl e d sf, Call.CreateProcessW cl inh fl e d sf ∈
      (PtyConnect st os id cmdline cwd env).trace →
        e = (if env.isEmpty then none else some env) := by
  intro cl inh fl e d sf h
  cases hg : get_pty_baton st.ptyHandles id with
  | none => rw [PtyConnect_trace_nil_of_none st os id cmdline cwd env hg] at h; simp at h
  | some handle =>
    have := PtyConnect_trace_allowed st os id cmdline cwd env handle hg _ h
    simp only [allowedCalls, List.mem_cons, List.mem_singleton, Call.CreateProcessW.injEq,
      List.mem_nil_iff, or_false, false_or, reduceCtorEq] at this
    exact this.2.2.2.1

/-- C10 (amended): for every environment block made of at least one string,
each non-empty, without a null byte and followed by one null, the whole
followed by one additional null, `envlen` reads nothing past the end of the
block and returns the length of the block, both terminating nulls included,
whatever memory follows the block; and the environment every `CreateProcessW`
call of the C entry point `PtyConnect` receives is non-null and is the
element-by-element widening of exactly that block. -/
theorem envlen_measures_nonempty_block (strs : List (List Int)) (hne : strs ≠ [])
    (hall : ∀ s ∈ strs, s ≠ [] ∧ ∀ c ∈ s, c ≠ 0) (rest : List Int) :
    envlen (envBlock strs ++ rest) = some (envBlock strs).length ∧
    (∀ (st : State) (os : ConnectOS) (id : Int) (cmdline cwd : List Int),
      attachAndSpawn st os id cmdline cwd (envBlock strs ++ rest) =
        PtyConnect st os id (cmdline.map widen) (cwd.map widen) ((envBlock strs).map widen) ∧
      ∀ cl inh fl e d sf, Call.CreateProcessW cl inh fl e d sf ∈
        (attachAndSpawn st os id cmdline cwd (envBlock strs ++ rest)).trace →
          e = some ((envBlock strs).map widen)) := by
  have hlen := envlen_block strs hne hall rest
  refine ⟨hlen, ?_⟩
  intro st os id cmdline cwd
  have heq : attachAndSpawn st os id cmdline cwd (envBlock strs ++ rest) =
      PtyConnect st os id (cmdline.map widen) (cwd.map widen) ((envBlock strs).map widen) := by
    unfold attachAndSpawn PtyConnect_C
    rw [hlen]
    simp only [List.take_left']
  refine ⟨heq, ?_⟩
  intro cl inh fl e d sf h
  rw [heq] at h
  have h2 := PtyConnect_env_passed st os id _ _ _ cl inh fl e d sf h
  rw [h2]
  have hnonempty : ((envBlock strs).map widen).isEmpty = false := by
    simp [envBlock]
  rw [hnonempty]
  rfl

theorem finalState_append (a b : List CreateArgs) :
    ∀ st, finalState st (a ++ b) = finalState (finalState st a) b := by
  induction a with
  | nil => intro st; rfl
  | cons c cs ih =>
    intro st
    show finalState (createSession st c).state (cs ++ b) = _
    rw [ih]
    rfl

theorem runCreate_append (a : List CreateArgs) (c : CreateArgs) (rest : List CreateArgs) :
    ∀ st, runCreate st (a ++ c :: rest) =
      runCreate st a ++ createSession (finalState st a) c ::
        runCreate (createSession (finalState st a) c).state rest := by
  induction a with
  | nil => intro st; rfl
  | cons x xs ih =>
    intro st
    show createSession st x :: runCreate (createSession st x).state (xs ++ c :: rest) = _
    rw [ih]
    rfl

theorem createSession_handles_extend (st : State) (c : CreateArgs) :
    ∃ extra, (createSession st c).state.ptyHandles = st.ptyHandles ++ extra := by
  rcases lt_or_le (createSession st c).hr 0 with h | h
  · exact ⟨[], by rw [(createSession_failed st c h).1, List.append_nil]⟩
  · obtain ⟨b, _, _, hst, _⟩ := createSession_succeeded st c h
    exact ⟨[b], by rw [hst]⟩

theorem finalState_handles_extend (calls : List CreateArgs) :
    ∀ st, ∃ extra, (finalState st calls).ptyHandles = st.ptyHandles ++ extra := by
  induction calls with
  | nil => intro st; exact ⟨[], by simp [finalState]⟩
  | cons c cs ih =>
    intro st
    obtain ⟨e1, h1⟩ := createSession_handles_extend st c
    obtain ⟨e2, h2⟩ := ih (createSession st c).state
    exact ⟨e1 ++ e2, by simp only [finalState, h2, h1, List.append_assoc]⟩

theorem Reg_length (n : Nat) (st : State) (h : Reg n st) : st.ptyHandles.length = n := by
  have := congrArg List.length h.2
  simpa using this

theorem Reg_ids_ne (n : Nat) (st : State) (h : Reg n st) (hn : n < 4294967296) :
    ∀ x ∈ st.ptyHandles, x.id ≠ idOf n := by
  intro x hx hid
  have hm : x.id ∈ st.ptyHandles.map (fun b => b.id) := List.mem_map_of_mem _ hx
  rw [h.2, List.mem_map] at hm
  obtain ⟨j, hj, hjx⟩ := hm
  rw [List.mem_range] at hj
  have := idOf_inj j n (by omega) hn (hjx.trans hid)
  omega

theorem createSession_outputs_succeeded (st : State) (c : CreateArgs) (o : CreateOutputs)
    (ho : (createSession st c).outputs = some o) : 0 ≤ (createSession st c).hr := by
  by_contra hneg
  have := (createSession_failed st c (not_le.mp hneg)).2.1
  rw [this] at ho
  exact Option.noConfusion ho

theorem createSession_inserted_hpc (st : State) (c : CreateArgs) (b : pty_baton)
    (hb : (createSession st c).inserted = some b)
    (hl : c.os.hLibrary ≠ 0) (hp : c.os.pfnCreate = true)
    (hi : c.os.pipeIn ≠ INVALID_HANDLE_VALUE) (ho : c.os.pipeOut ≠ INVALID_HANDLE_VALUE) :
    b.hpc = c.os.consoleHpc ∧ b.hIn = c.os.pipeIn ∧ b.hOut = c.os.pipeOut := by
  unfold createSession CreateNamedPipesAndPseudoConsole_C CreateNamedPipesAndPseudoConsole
    createDataServerPipe at hb
  simp only [hl, hp, hi, ho, ne_eq, not_false_eq_true, decide_True, if_true,
    Option.isNone_some, Bool.or_self, Bool.false_eq_true, if_false, Bool.not_true,
    Option.getD_some] at hb
  split at hb
  · simp only [Option.some.injEq] at hb
    subst hb
    exact ⟨rfl, rfl, rfl⟩
  · simp at hb

theorem PtyConnect_uses_record (st : State) (os : ConnectOS) (id : Int)
    (cmdline cwd env : WString) (b : pty_baton)
    (hg : get_pty_baton st.ptyHandles id = some b) :
    ∀ call ∈ (PtyConnect st os id cmdline cwd env).trace,
      (∀ h, call = Call.ConnectNamedPipe h → h = b.hIn ∨ h = b.hOut) ∧
      (∀ k v, call = Call.UpdateProcThreadAttribute k v →
        k = PROC_THREAD_ATTRIBUTE_PSEUDOCONSOLE ∧ v = b.hpc) ∧
      (∀ w n, call = Call.InitializeProcThreadAttributeList w n → n = 1) := by
  intro call hc
  have := PtyConnect_trace_allowed st os id cmdline cwd env b hg call hc
  simp only [allowedCalls, List.mem_cons, List.mem_singleton, List.mem_nil_iff, or_false] at this
  rcases this with h | h | h | h | h | h <;> subst h <;> simp

theorem PtyConnect_trace_handshake (st : State) (os : ConnectOS) (id : Int)
    (cmdline cwd env : WString) (b : pty_baton)
    (hg : get_pty_baton st.ptyHandles id = some b)
    (h1 : cmdline.length < STRSAFE_MAX_CCH) (h2 : cwd.length < STRSAFE_MAX_CCH)
    (hci : os.connectIn = true) (hco : os.connectOut = true) (hi : os.initAttr = true) :
    (PtyConnect st os id cmdline cwd env).trace =
      [Call.ConnectNamedPipe b.hIn, Call.ConnectNamedPipe b.hOut,
       Call.InitializeProcThreadAttributeList false 1,
       Call.InitializeProcThreadAttributeList true 1,
       Call.UpdateProcThreadAttribute PROC_THREAD_ATTRIBUTE_PSEUDOCONSOLE b.hpc] ++
      (if os.updateAttr = true then
        [Call.CreateProcessW (c_str cmdline) false
          (EXTENDED_STARTUPINFO_PRESENT ||| CREATE_UNICODE_ENVIRONMENT)
          (if env.isEmpty then none else some env) (c_str cwd) STARTF_USESTDHANDLES]
       else []) := by
  unfold PtyConnect vectorFromString
  simp only [hg, StringCchCopyW_fits cmdline h1, StringCchCopyW_fits cwd h2]
  have hs : SUCCEEDED (0 : Int) = true := by decide
  simp only [hs, hci, hco, hi]
  cases hu : os.updateAttr <;> cases hp : os.createProcess <;> simp

theorem PtyConnect_trace_head (st : State) (os : ConnectOS) (id : Int)
    (cmdline cwd env : WString) (b : pty_baton)
    (hg : get_pty_baton st.ptyHandles id = some b)
    (h1 : cmdline.length < STRSAFE_MAX_CCH) (h2 : cwd.length < STRSAFE_MAX_CCH) :
    (PtyConnect st os id cmdline cwd env).trace.head? = some (Call.ConnectNamedPipe b.hIn) ∧
    (os.connectIn = true →
      (PtyConnect st os id cmdline cwd env).trace.take 2 =
        [Call.ConnectNamedPipe b.hIn, Call.ConnectNamedPipe b.hOut]) := by
  unfold PtyConnect vectorFromString
  simp only [hg, StringCchCopyW_fits cmdline h1, StringCchCopyW_fits cwd h2]
  have hs : SUCCEEDED (0 : Int) = true := by decide
  simp only [hs]
  cases hci : os.connectIn <;> cases hco : os.connectOut <;> cases hn : os.ndebug <;>
    cases hi : os.initAttr <;> cases hu : os.updateAttr <;> cases hp : os.createProcess <;>
    simp

/-- C3 (amended): in every serialized sequence of `createSession` calls from
the initial state in which at most 2^32 calls succeed, for every call that
returned outputs, `get_pty_baton` on the returned id finds, in the final
registry, exactly the record that call inserted; its handles are the input and
output handles the call returned and its console is the one
`CreatePseudoConsole` produced in that call. `PtyConnect` on that id connects
the returned input handle first and, once that connection succeeds, the
returned output handle; when both connections and the attribute-list
initialisation succeed, its calls are exactly: connect the input handle,
connect the output handle, size and initialise a one-attribute list, put that
console into it under the pseudo-console key, and (when that succeeds) create
the process. On no path does it connect another handle or attach another
console. -/
theorem attach_finds_created_session (before after : List CreateArgs) (c : CreateArgs)
    (o : CreateOutputs)
    (hbound : (returnedIds (runCreate State.init (before ++ c :: after))).length ≤ 4294967296)
    (ho : (createSession (finalState State.init before) c).outputs = some o) :
    ∃ b : pty_baton,
      (createSession (finalState State.init before) c).inserted = some b ∧
      get_pty_baton (finalState State.init (before ++ c :: after)).ptyHandles o.ptyId = some b ∧
      b.id = o.ptyId ∧ b.hIn = o.hIn ∧ b.hOut = o.hOut ∧
      (c.os.hLibrary ≠ 0 → c.os.pfnCreate = true → c.os.pipeIn ≠ INVALID_HANDLE_VALUE →
        c.os.pipeOut ≠ INVALID_HANDLE_VALUE → b.hpc = c.os.consoleHpc) ∧
      (∀ (os : ConnectOS) (cmdline cwd env : WString),
        ∀ call ∈ (PtyConnect (finalState State.init (before ++ c :: after)) os o.ptyId
            cmdline cwd env).trace,
          (∀ h, call = Call.ConnectNamedPipe h → h = o.hIn ∨ h = o.hOut) ∧
          (∀ k v, call = Call.UpdateProcThreadAttribute k v →
            k = PROC_THREAD_ATTRIBUTE_PSEUDOCONSOLE ∧ v = b.hpc) ∧
          (∀ w n, call = Call.InitializeProcThreadAttributeList w n → n = 1)) ∧
      (∀ (os : ConnectOS) (cmdline cwd env : WString),
        cmdline.length < STRSAFE_MAX_CCH → cwd.length < STRSAFE_MAX_CCH →
          (PtyConnect (finalState State.init (before ++ c :: after)) os o.ptyId
              cmdline cwd env).trace.head? = some (Call.ConnectNamedPipe o.hIn) ∧
          (os.connectIn = true →
            (PtyConnect (finalState State.init (before ++ c :: after)) os o.ptyId
                cmdline cwd env).trace.take 2 =
              [Call.ConnectNamedPipe o.hIn, Call.ConnectNamedPipe o.hOut]) ∧
          (os.connectIn = true → os.connectOut = true → os.initAttr = true →
            (PtyConnect (finalState State.init (before ++ c :: after)) os o.ptyId
                cmdline cwd env).trace =
              [Call.ConnectNamedPipe o.hIn, Call.ConnectNamedPipe o.hOut,
               Call.InitializeProcThreadAttributeList false 1,
               Call.InitializeProcThreadAttributeList true 1,
               Call.UpdateProcThreadAttribute PROC_THREAD_ATTRIBUTE_PSEUDOCONSOLE b.hpc] ++
              (if os.updateAttr = true then
                [Call.CreateProcessW (c_str cmdline) false
                  (EXTENDED_STARTUPINFO_PRESENT ||| CREATE_UNICODE_ENVIRONMENT)
                  (if env.isEmpty then none else some env) (c_str cwd) STARTF_USESTDHANDLES]
               else []))) := by
  -- the state before the call
  have hregB := (run_ids before State.init 0 Reg_init).2
  rw [Nat.zero_add] at hregB
  generalize hp : (returnedIds (runCreate State.init before)).length = p at hregB
  -- the call succeeds
  have hsucc := createSession_outputs_succeeded _ c o ho
  obtain ⟨b, hbid, hins, hst, o2, ho2, hid, hin, hout⟩ :=
    createSession_succeeded (finalState State.init before) c hsucc
  rw [ho] at ho2
  obtain rfl : o = o2 := Option.some.inj ho2
  have hbp : b.id = idOf p := by rw [hbid, hregB.1, toInt32_succ]; rfl
  -- the final state
  have hregF := (run_ids (before ++ c :: after) State.init 0 Reg_init).2
  rw [Nat.zero_add] at hregF
  have hfin : finalState State.init (before ++ c :: after) =
      finalState (createSession (finalState State.init before) c).state after := by
    rw [finalState_append]; rfl
  obtain ⟨extra, hextra⟩ :=
    finalState_handles_extend after (createSession (finalState State.init before) c).state
  have hhandles : (finalState State.init (before ++ c :: after)).ptyHandles =
      (finalState State.init before).ptyHandles ++ b :: extra := by
    rw [hfin, hextra, hst]; simp
  have hlen := Reg_length _ _ hregF
  rw [hhandles, List.length_append, List.length_cons, Reg_length _ _ hregB] at hlen
  have hplt : p < 4294967296 := by omega
  have hlookup : get_pty_baton (finalState State.init (before ++ c :: after)).ptyHandles
      o.ptyId = some b := by
    rw [hhandles, hid]
    exact get_pty_baton_append _ _ _ _ (by rw [hbp]; exact Reg_ids_ne p _ hregB hplt) rfl
  refine ⟨b, hins, hlookup, hid.symm, hin.symm, hout.symm, ?_, ?_, ?_⟩
  · intro hl hpf hi hop
    exact (createSession_inserted_hpc _ c b hins hl hpf hi hop).1
  · intro os cmdline cwd env call hcall
    have := PtyConnect_uses_record _ os o.ptyId cmdline cwd env b hlookup call hcall
    rw [hin, hout]
    exact this
  · intro os cmdline cwd env h1 h2
    have hhead := PtyConnect_trace_head _ os o.ptyId cmdline cwd env b hlookup h1 h2
    rw [hin, hout]
    refine ⟨hhead.1, hhead.2, ?_⟩
    intro hci hco hi
    exact PtyConnect_trace_handshake _ os o.ptyId cmdline cwd env b hlookup h1 h2 hci hco hi

/-- C10, witness: the block of the one string `A=B`. -/
theorem envlen_measures_nonempty_block_witness :
    envlen (envBlock [[65, 61, 66]] ++ []) = some 5 ∧
    Call.CreateProcessW (L "cmd.exe") false 0x00080400 (some [65, 61, 66, 0, 0]) (L "C:\\")
        0x00000100 ∈
      (attachAndSpawn oneSession (okSpawn 4242) 1 [99, 109, 100, 46, 101, 120, 101]
        [67, 58, 92] (envBlock [[65, 61, 66]] ++ [])).trace :=
  ⟨(envlen_measures_nonempty_block [[65, 61, 66]] (by decide) (by decide) []).1, by decide⟩

/-- C10, counterexample: the block of no string at all is a single null;
`envlen` reads past its end, and with memory following the block it returns a
length beyond the block. -/
theorem envlen_empty_block_counterexample :
    envBlock [] = [0] ∧ envlen (envBlock []) = none ∧
    (attachAndSpawn oneSession (okSpawn 4242) 1 [99, 109, 100, 46, 101, 120, 101]
        [67, 58, 92] (envBlock [])).outcome = Outcome.readPastEnd ∧
    envlen (envBlock [] ++ [65, 0, 0]) = some 4 := by
  decide

theorem all_succeed_length (calls : List CreateArgs)
    (hc : ∀ c ∈ calls, ∀ st, 0 ≤ (createSession st c).hr) :
    ∀ st, (returnedIds (runCreate st calls)).length = calls.length := by
  induction calls with
  | nil => intro st; rfl
  | cons c cs ih =>
    intro st
    obtain ⟨b, _, _, _, o, ho, _⟩ :=
      createSession_succeeded st c (hc c (List.mem_cons_self c cs) st)
    simp only [runCreate, returnedIds_cons_some _ _ o ho, List.length_cons]
    rw [ih (fun x hx => hc x (List.mem_cons_of_mem c hx))]

theorem okCall_result (st : State) (hIn hOut : HANDLE) (hpc : HPCON)
    (h1 : hIn ≠ INVALID_HANDLE_VALUE) (h2 : hOut ≠ INVALID_HANDLE_VALUE) :
    (createSession st (okCall hIn hOut hpc)).inserted =
        some { id := toInt32 (st.ptyCounter + 1), hIn := hIn, hOut := hOut, hpc := hpc } ∧
      (createSession st (okCall hIn hOut hpc)).state =
        { ptyHandles := st.ptyHandles ++
            [{ id := toInt32 (st.ptyCounter + 1), hIn := hIn, hOut := hOut, hpc := hpc }],
          ptyCounter := toInt32 (st.ptyCounter + 1) } ∧
      (createSession st (okCall hIn hOut hpc)).outputs.map (fun o => (o.ptyId, o.hIn, o.hOut)) =
        some (toInt32 (st.ptyCounter + 1), hIn, hOut) := by
  unfold createSession CreateNamedPipesAndPseudoConsole_C CreateNamedPipesAndPseudoConsole
    createDataServerPipe
  simp [okCall, h1, h2, SUCCEEDED, InterlockedIncrement]

theorem finalState_cons (st : State) (c : CreateArgs) (cs : List CreateArgs) :
    finalState st (c :: cs) = finalState (createSession st c).state cs := rfl

theorem wrapped_run_state :
    (finalState State.init
        (okCall 100 101 200 :: List.replicate 4294967295 (okCall 110 111 210))).ptyCounter = 0 ∧
    ∃ extra, (finalState State.init
        (okCall 100 101 200 :: List.replicate 4294967295 (okCall 110 111 210))).ptyHandles =
      { id := 1, hIn := 100, hOut := 101, hpc := 200 } :: extra := by
  have hc : ∀ c ∈ okCall 100 101 200 :: List.replicate 4294967295 (okCall 110 111 210),
      ∀ st, 0 ≤ (createSession st c).hr := by
    intro c hc st
    rcases List.mem_cons.mp hc with h | h
    · rw [h, okCall_hr st 100 101 200 (by decide) (by decide)]
    · rw [List.eq_of_mem_replicate h, okCall_hr st 110 111 210 (by decide) (by decide)]
  have hlen := all_succeed_length _ hc State.init
  have hreg := (run_ids (okCall 100 101 200 :: List.replicate 4294967295 (okCall 110 111 210))
    State.init 0 Reg_init).2
  rw [hlen, List.length_cons, List.length_replicate, Nat.zero_add] at hreg
  constructor
  · rw [hreg.1]; decide
  · have h1 := (okCall_result State.init 100 101 200 (by decide) (by decide)).2.1
    obtain ⟨extra, he⟩ := finalState_handles_extend
      (List.replicate 4294967295 (okCall 110 111 210))
      (createSession State.init (okCall 100 101 200)).state
    refine ⟨extra, ?_⟩
    have e : toInt32 (State.init.ptyCounter + 1) = 1 := by decide
    rw [finalState_cons, he, h1, e]
    rfl

/-- C3, witness: three calls, the second of which fails; the lookup of the id
the third call returned finds the third call's record, and a spawn on that id
connects the handles 104 and 105 and attaches the console 202. -/
theorem attach_finds_created_session_witness :
    get_pty_baton (finalState State.init
        ([okCall 100 101 200, pipeBusyCall] ++ okCall 104 105 202 :: [])).ptyHandles 2 =
      some { id := 2, hIn := 104, hOut := 105, hpc := 202 } ∧
    (PtyConnect (finalState State.init
        ([okCall 100 101 200, pipeBusyCall] ++ okCall 104 105 202 :: [])) (okSpawn 4242) 2
        (L "cmd.exe") (L "C:\\") (L "A=B" ++ [0, 0])).trace =
      [Call.ConnectNamedPipe 104, Call.ConnectNamedPipe 105,
       Call.InitializeProcThreadAttributeList false 1,
       Call.InitializeProcThreadAttributeList true 1,
       Call.UpdateProcThreadAttribute PROC_THREAD_ATTRIBUTE_PSEUDOCONSOLE 202,
       Call.CreateProcessW (L "cmd.exe") false 0x00080400 (some (L "A=B" ++ [0, 0]))
         (L "C:\\") 0x00000100] := by
  obtain ⟨b, _, h2, h3, h4, h5, h6, _, hpos⟩ :=
    attach_finds_created_session [okCall 100 101 200, pipeBusyCall] [] (okCall 104 105 202)
      { ptyId := 2, hIn := 104, inName := L "\\\\.\\pipe\\sess1-in" ++ [0], hOut := 105,
        outName := L "\\\\.\\pipe\\sess1-out" ++ [0] } (by decide) (by decide)
  have h7 := h6 (by decide) rfl (by decide) (by decide)
  have hb : b = { id := 2, hIn := 104, hOut := 105, hpc := 202 } := by
    cases b
    simp only [pty_baton.mk.injEq]
    exact ⟨h3, h4, h5, h7⟩
  subst hb
  refine ⟨h2, ?_⟩
  rw [(hpos (okSpawn 4242) (L "cmd.exe") (L "C:\\") (L "A=B" ++ [0, 0]) (by decide)
    (by decide)).2.2 rfl rfl rfl]
  decide

/-- C3, counterexample: after 2^32 successful calls the counter is back at 0, so
the next call returns the id 1 again, and the lookup of that id finds the
record of the first call, with other handles and another console. -/
theorem attach_after_wrap_counterexample :
    (createSession
        (finalState State.init
          (okCall 100 101 200 :: List.replicate 4294967295 (okCall 110 111 210)))
        (okCall 120 121 220)).inserted =
      some { id := 1, hIn := 120, hOut := 121, hpc := 220 } ∧
    (createSession
        (finalState State.init
          (okCall 100 101 200 :: List.replicate 4294967295 (okCall 110 111 210)))
        (okCall 120 121 220)).outputs.map (fun o => (o.ptyId, o.hIn, o.hOut)) =
      some (1, 120, 121) ∧
    get_pty_baton (finalState State.init
        ((okCall 100 101 200 :: List.replicate 4294967295 (okCall 110 111 210)) ++
          okCall 120 121 220 :: [])).ptyHandles 1 =
      some { id := 1, hIn := 100, hOut := 101, hpc := 200 } := by
  obtain ⟨hcnt, extra, hh⟩ := wrapped_run_state
  obtain ⟨h1, h2, h3⟩ := okCall_result
    (finalState State.init
      (okCall 100 101 200 :: List.replicate 4294967295 (okCall 110 111 210)))
    120 121 220 (by decide) (by decide)
  rw [hcnt] at h1 h2 h3
  have e : toInt32 (0 + 1) = 1 := by decide
  rw [e] at h1 h2 h3
  refine ⟨h1, h3, ?_⟩
  rw [finalState_append, finalState_cons, finalState, h2, hh]
  simp [get_pty_baton]

end ConPty
